/-
Verification of the response-normalization and record-derivation logic of
the promptmenu-ai serverless endpoints (src/analyze-document/__init__.py and
src/analyze-menu-image/__init__.py), against the natural-language spec.

Python strings are embedded as lists of Unicode codepoints (`PyStr`).
Character classification (`\w`, `\s`) and lower-casing follow Python's
semantics exactly on the ASCII and Latin-1 ranges, which is the domain the
proved statements quantify over; codepoints above U+00FF are treated as
non-word, non-space and case-fixed.
-/
import Mathlib

/-- Python strings, embedded as lists of Unicode codepoints. -/
abbrev PyStr := List Nat

/-- Codepoints of a Lean string literal, for readable concrete inputs. -/
def str (s : String) : PyStr := s.data.map Char.toNat

/-- Python's regex `\w` (word character) on the ASCII and Latin-1 ranges:
digits, ASCII letters, underscore, the Latin-1 letters (ª µ º and the
À–ÿ block minus × ÷) and the Latin-1 numeric characters (¹ ² ³ ¼ ½ ¾).
Codepoints above U+00FF are outside the modelled domain and count as
non-word. -/
def pyIsWordN (n : Nat) : Bool :=
  (48 ≤ n && n ≤ 57) || (65 ≤ n && n ≤ 90) || (97 ≤ n && n ≤ 122) || n == 95 ||
  n == 0xAA || n == 0xB5 || n == 0xBA ||
  n == 0xB2 || n == 0xB3 || n == 0xB9 || n == 0xBC || n == 0xBD || n == 0xBE ||
  (0xC0 ≤ n && n ≤ 0xFF && !(n == 0xD7) && !(n == 0xF7))

/-- Python's regex `\s` (whitespace) on the ASCII and Latin-1 ranges:
tab through carriage return, the file/group/record/unit separators,
space, next-line (U+0085) and no-break space (U+00A0). -/
def pyIsSpaceN (n : Nat) : Bool :=
  (9 ≤ n && n ≤ 13) || (28 ≤ n && n ≤ 31) || n == 32 || n == 0x85 || n == 0xA0

/-- Python's `str.lower` per codepoint, exact on ASCII and Latin-1:
A–Z and the Latin-1 capitals À–Þ (minus ×) shift by 32; everything else
is unchanged. -/
def pyLowerN (n : Nat) : Nat :=
  if (65 ≤ n && n ≤ 90) || (0xC0 ≤ n && n ≤ 0xDE && !(n == 0xD7)) then n + 32
  else n

/-- Python's `str.lower` lifted to strings. -/
def pyLower (s : PyStr) : PyStr := s.map pyLowerN

/-- One pass of `re.sub(r'\s+', '_', s)`: the flag records whether the
previous character was whitespace, so that each maximal whitespace run
emits a single underscore. -/
def collapseWsAux : Bool → PyStr → PyStr
  | _, [] => []
  | prev, n :: rest =>
    if pyIsSpaceN n then
      if prev then collapseWsAux true rest
      else 95 :: collapseWsAux true rest
    else n :: collapseWsAux false rest

/-- The substitution `re.sub` of pattern `\s+` by an underscore: replace
each maximal run of whitespace with a single underscore. -/
def collapseWs (s : PyStr) : PyStr := collapseWsAux false s

/-- The function `convert_to_snake_case` (identical in src/analyze-document/__init__.py
lines 467-477 and src/analyze-menu-image/__init__.py lines 512-522):
replace every character that is neither `\w` nor `\s` with an underscore,
collapse whitespace runs to single underscores, lower-case the result. -/
def convert_to_snake_case (text : PyStr) : PyStr :=
  let s1 := text.map (fun n => if !pyIsWordN n && !pyIsSpaceN n then 95 else n)
  let s2 := collapseWs s1
  s2.map pyLowerN

example : convert_to_snake_case (str "John Doe") = str "john_doe" := by decide
example : convert_to_snake_case (str "  a-b  c!") = str "_a_b_c_" := by decide

/-- A word character stays a word character under lower-casing, is never
whitespace, and lower-casing is idempotent on it (within the modelled
ASCII/Latin-1 domain; higher codepoints are word-false so the claim is
vacuous for them). -/
theorem pyLowerN_word_fix (n : Nat) (h : pyIsWordN n = true) :
    pyIsWordN (pyLowerN n) = true ∧ pyIsSpaceN (pyLowerN n) = false ∧
      pyLowerN (pyLowerN n) = pyLowerN n := by
  have hn : n < 256 := by
    simp only [pyIsWordN, Bool.or_eq_true, Bool.and_eq_true, Bool.not_eq_true',
      decide_eq_true_eq, beq_iff_eq, beq_eq_false_iff_ne, ne_eq] at h
    omega
  interval_cases n <;> revert h <;> decide

/-- Every codepoint emitted by the whitespace-collapsing pass is either the
underscore it inserts or a non-whitespace codepoint of the input. -/
theorem mem_collapseWsAux (b : Bool) (s : PyStr) (m : Nat)
    (hm : m ∈ collapseWsAux b s) : m = 95 ∨ (m ∈ s ∧ pyIsSpaceN m = false) := by
  induction s generalizing b with
  | nil => simp [collapseWsAux] at hm
  | cons c rest ih =>
    simp only [collapseWsAux] at hm
    by_cases hc : pyIsSpaceN c = true
    · rw [if_pos hc] at hm
      by_cases hb : b = true
      · rw [if_pos hb] at hm
        rcases ih true hm with h | ⟨h1, h2⟩
        · exact Or.inl h
        · exact Or.inr ⟨List.mem_cons_of_mem c h1, h2⟩
      · rw [if_neg hb] at hm
        rcases List.mem_cons.mp hm with h | h
        · exact Or.inl h
        · rcases ih true h with h | ⟨h1, h2⟩
          · exact Or.inl h
          · exact Or.inr ⟨List.mem_cons_of_mem c h1, h2⟩
    · rw [if_neg hc] at hm
      have hc' : pyIsSpaceN c = false := Bool.eq_false_iff.mpr hc
      rcases List.mem_cons.mp hm with h | h
      · exact Or.inr ⟨h ▸ List.mem_cons_self c rest, h ▸ hc'⟩
      · rcases ih false h with h | ⟨h1, h2⟩
        · exact Or.inl h
        · exact Or.inr ⟨List.mem_cons_of_mem c h1, h2⟩

/-- Collapsing whitespace in a string that has none is the identity. -/
theorem collapseWsAux_of_no_space (b : Bool) (s : PyStr)
    (hs : ∀ m ∈ s, pyIsSpaceN m = false) : collapseWsAux b s = s := by
  induction s generalizing b with
  | nil => rfl
  | cons c rest ih =>
    have hc : pyIsSpaceN c = false := hs c (List.mem_cons_self c rest)
    simp only [collapseWsAux, hc]
    simp only [Bool.false_eq_true, if_false]
    exact congrArg (c :: ·) (ih false (fun m hm => hs m (List.mem_cons_of_mem c hm)))

/-- Mapping a function that fixes every element of a list is the identity. -/
theorem map_fix_of_mem {f : Nat → Nat} (s : PyStr)
    (hs : ∀ m ∈ s, f m = m) : s.map f = s := by
  induction s with
  | nil => rfl
  | cons c rest ih =>
    simp only [List.map_cons, hs c (List.mem_cons_self c rest)]
    exact congrArg (c :: ·) (ih (fun m hm => hs m (List.mem_cons_of_mem c hm)))

/-- Every codepoint of a normalized string is the lower-casing of some word
character produced by the first two normalization passes. -/
theorem snake_chars_word (x : PyStr) (m : Nat)
    (hm : m ∈ convert_to_snake_case x) : ∃ k, k ∈ collapseWs
      (x.map (fun n => if !pyIsWordN n && !pyIsSpaceN n then 95 else n)) ∧
      pyIsWordN k = true ∧ m = pyLowerN k := by
  simp only [convert_to_snake_case, List.mem_map] at hm
  obtain ⟨k, hk, hmk⟩ := hm
  refine ⟨k, hk, ?_, hmk.symm⟩
  rcases mem_collapseWsAux false _ k hk with h | ⟨h1, h2⟩
  · subst h; decide
  · simp only [List.mem_map] at h1
    obtain ⟨n, _, hn⟩ := h1
    by_cases hw : (!pyIsWordN n && !pyIsSpaceN n) = true
    · rw [if_pos hw] at hn; subst hn; decide
    · rw [if_neg hw] at hn
      subst hn
      simp only [Bool.and_eq_true, Bool.not_eq_true', not_and] at hw
      rcases Bool.eq_false_or_eq_true (pyIsWordN n) with h | h
      · exact h
      · exact absurd h2 (hw h)

/-- Every codepoint of a normalized string is a word character, is not
whitespace, and is fixed by lower-casing. -/
theorem snake_output_char (x : PyStr) (m : Nat)
    (hm : m ∈ convert_to_snake_case x) :
    pyIsWordN m = true ∧ pyIsSpaceN m = false ∧ pyLowerN m = m := by
  obtain ⟨k, _, hkw, rfl⟩ := snake_chars_word x m hm
  obtain ⟨h1, h2, h3⟩ := pyLowerN_word_fix k hkw
  exact ⟨h1, h2, h3⟩

/-- Normalized output of ASCII input stays ASCII. -/
theorem snake_chars_lt (x : PyStr) (hx : ∀ n ∈ x, n < 128) :
    ∀ m ∈ convert_to_snake_case x, m < 128 := by
  intro m hm
  obtain ⟨k, hk, _, rfl⟩ := snake_chars_word x m hm
  have hk' : k < 128 := by
    rcases mem_collapseWsAux false _ k hk with h | ⟨h1, _⟩
    · omega
    · simp only [List.mem_map] at h1
      obtain ⟨n, hn, hkn⟩ := h1
      by_cases hc : (!pyIsWordN n && !pyIsSpaceN n) = true
      · rw [if_pos hc] at hkn; omega
      · rw [if_neg hc] at hkn
        exact hkn ▸ hx n hn
  simp only [pyLowerN]
  split_ifs with h
  · simp only [Bool.or_eq_true, Bool.and_eq_true, Bool.not_eq_true',
      decide_eq_true_eq, beq_eq_false_iff_ne, ne_eq] at h
    omega
  · exact hk'

/-- C6 (amended): on the ASCII/Latin-1 domain (where the embedding of
Python's `\w`, `\s` and `str.lower` is exact), `convert_to_snake_case` is
idempotent; and when the input is pure ASCII its output contains no
codepoint outside `[a-z0-9_]`. The original claim's charset guarantee
fails for non-ASCII input, which passes through lower-cased. -/
theorem convert_to_snake_case_idem_charset (x : PyStr)
    (_hx : ∀ n ∈ x, n < 256) :
    convert_to_snake_case (convert_to_snake_case x) = convert_to_snake_case x ∧
    ((∀ n ∈ x, n < 128) → ∀ m ∈ convert_to_snake_case x,
      (97 ≤ m ∧ m ≤ 122) ∨ (48 ≤ m ∧ m ≤ 57) ∨ m = 95) := by
  constructor
  · show (collapseWs ((convert_to_snake_case x).map
      (fun n => if !pyIsWordN n && !pyIsSpaceN n then 95 else n))).map pyLowerN =
      convert_to_snake_case x
    have hmap1 : (convert_to_snake_case x).map
        (fun n => if !pyIsWordN n && !pyIsSpaceN n then 95 else n) =
        convert_to_snake_case x := by
      apply map_fix_of_mem
      intro m hm
      have hw := (snake_output_char x m hm).1
      simp [hw]
    rw [hmap1]
    have hcol : collapseWs (convert_to_snake_case x) = convert_to_snake_case x :=
      collapseWsAux_of_no_space false _ (fun m hm => (snake_output_char x m hm).2.1)
    rw [hcol]
    exact map_fix_of_mem _ (fun m hm => (snake_output_char x m hm).2.2)
  · intro hascii m hm
    have hlt := snake_chars_lt x hascii m hm
    obtain ⟨hw, _, hfix⟩ := snake_output_char x m hm
    by_cases hc : ((65 ≤ m && m ≤ 90) || (0xC0 ≤ m && m ≤ 0xDE && !(m == 0xD7))) = true
    · exfalso
      have : pyLowerN m = m + 32 := by simp only [pyLowerN, if_pos hc]
      omega
    · simp only [pyIsWordN, Bool.or_eq_true, Bool.and_eq_true, Bool.not_eq_true',
        decide_eq_true_eq, beq_iff_eq, beq_eq_false_iff_ne, ne_eq] at hw
      simp only [Bool.or_eq_true, Bool.and_eq_true, Bool.not_eq_true',
        decide_eq_true_eq, beq_eq_false_iff_ne, ne_eq, not_or, not_and] at hc
      omega

/-- Witness: the amended C6 theorem applied to the concrete ASCII input
"John Doe!". -/
theorem convert_to_snake_case_idem_charset_witness :
    convert_to_snake_case (convert_to_snake_case (str "John Doe!")) =
      convert_to_snake_case (str "John Doe!") ∧
    ∀ m ∈ convert_to_snake_case (str "John Doe!"),
      (97 ≤ m ∧ m ≤ 122) ∨ (48 ≤ m ∧ m ≤ 57) ∨ m = 95 := by
  have h := convert_to_snake_case_idem_charset (str "John Doe!") (by decide)
  exact ⟨h.1, h.2 (by decide)⟩

/-- C6 counterexample: the non-ASCII letter "é" (U+00E9) is a Python word
character, survives normalization unchanged, and lies outside
`[a-z0-9_]`, refuting the claim's output-charset guarantee as stated. -/
theorem convert_to_snake_case_charset_counterexample :
    convert_to_snake_case (str "é") = str "é" ∧
    233 ∈ convert_to_snake_case (str "é") ∧
    ¬((97 ≤ 233 ∧ 233 ≤ 122) ∨ (48 ≤ 233 ∧ 233 ≤ 57) ∨ 233 = 95) := by
  decide

/-- Does `needle` occur as a leading segment of `hay`? -/
def startsWithL : PyStr → PyStr → Bool
  | [], _ => true
  | _ :: _, [] => false
  | a :: as, b :: bs => a == b && startsWithL as bs

/-- Python's `needle in hay` substring test. -/
def containsSub (needle : PyStr) : PyStr → Bool
  | [] => needle.isEmpty
  | c :: rest => startsWithL needle (c :: rest) || containsSub needle rest

/-- Python's `str.strip()`: drop leading and trailing whitespace. -/
def stripWs (s : PyStr) : PyStr :=
  ((s.dropWhile (fun c => pyIsSpaceN c)).reverse.dropWhile
    (fun c => pyIsSpaceN c)).reverse

/-- Drop `lit` from the front of `s`, if it is a leading segment. -/
def dropLit : PyStr → PyStr → Option PyStr
  | [], s => some s
  | _ :: _, [] => none
  | a :: as, b :: bs => if a == b then dropLit as bs else none

/-- First literal alternative (in the regex's preference order) matching a
leading segment of `s`; returns the remaining suffix. -/
def firstHit : List PyStr → PyStr → Option PyStr
  | [], _ => none
  | p :: ps, s =>
    match dropLit p s with
    | some rest => some rest
    | none => firstHit ps s

/-- Fuel-driven core of `re.sub(pattern, '', s)` for a literal-alternative
pattern: scan left to right replacing each non-overlapping occurrence with
the empty string. Each step consumes at least one input codepoint (the
alternatives are nonempty), so fuel `s.length` is exact. -/
def subAllFuel (pats : List PyStr) : Nat → PyStr → PyStr
  | 0, s => s
  | _ + 1, [] => []
  | fuel + 1, c :: rest =>
    match firstHit pats (c :: rest) with
    | some suffix => subAllFuel pats fuel suffix
    | none => c :: subAllFuel pats fuel rest

/-- The substitution `re.sub(p, '', s)` where `p` is an alternation of the
given literals. -/
def subAllLits (pats : List PyStr) (s : PyStr) : PyStr :=
  subAllFuel pats s.length s

/-- Python's `'\n'.split` counterpart: split a string at every newline. -/
def splitNl : PyStr → List PyStr
  | [] => [[]]
  | c :: rest =>
    match splitNl rest with
    | s :: ss => if c == 10 then [] :: s :: ss else (c :: s) :: ss
    | [] => [[c]]

example : subAllLits [str "ab"] (str "xabyab") = str "xy" := by decide
example : splitNl (str "a\nb\n") = [str "a", str "b", str ""] := by decide
example : stripWs (str "  a b  ") = str "a b" := by decide

/-- One image tag of the vision response (`tag.name`, `tag.confidence`).
Confidence is embedded as a rational. -/
structure VTag where
  name : PyStr
  confidence : ℚ
deriving DecidableEq

/-- The vision response caption (`result.caption`). -/
structure VCaption where
  text : PyStr
  confidence : ℚ
deriving DecidableEq

/-- One OCR block of the vision response (`result.read.blocks[i]`), as the
texts of its lines. -/
structure VBlockM where
  lines : List PyStr
deriving DecidableEq

/-- The parts of a successful vision-service response consumed by
`analyze_menu_image`. `none` encodes an absent (falsy) attribute. The
`objects` attribute is passed through untouched by the verified claims and
is not modelled. -/
structure VisionInput where
  tags : Option (List VTag)
  caption : Option VCaption
  readBlocks : Option (List VBlockM)
deriving DecidableEq

/-- The `vision_results` dictionary built by `analyze_menu_image`
(src/analyze-menu-image/__init__.py lines 317-325), minus the unmodelled
`objects` entry. -/
structure VisionResults where
  dish_name : PyStr
  caption : PyStr
  caption_confidence : ℚ
  food_tags : List VTag
  menu_text : PyStr
deriving DecidableEq

/-- The fixed food-domain keyword list of the reducer (line 282). -/
def food_related_categories : List PyStr :=
  [str "food", str "cuisine", str "dish", str "meal", str "ingredient",
   str "dessert", str "fruit", str "vegetable", str "meat"]

/-- The tag filter of line 285: the lower-cased tag name contains some
food-domain keyword as a substring. -/
def isFoodTagName (name : PyStr) : Bool :=
  food_related_categories.any (fun k => containsSub k (pyLower name))

/-- Insert a tag into a confidence-descending list, after every existing
tag of greater-or-equal confidence: combined with `sortTagsDesc` this is
Python's stable `list.sort(key=confidence, reverse=True)`. -/
def insertTagDesc (t : VTag) : List VTag → List VTag
  | [] => [t]
  | u :: us =>
    if t.confidence ≥ u.confidence then t :: u :: us
    else u :: insertTagDesc t us

/-- Stable sort by confidence descending (line 289). -/
def sortTagsDesc : List VTag → List VTag
  | [] => []
  | t :: ts => insertTagDesc t (sortTagsDesc ts)

/-- The caption boilerplate lead-ins removed by the regex of line 298,
`(a|an) (photo|picture|image) of`, expanded in the regex engine's
alternative order. -/
def captionLeadIns : List PyStr :=
  [str "a photo of", str "a picture of", str "a image of",
   str "an photo of", str "an picture of", str "an image of"]

/-- The dish-name line test of line 313, `re.match(r'^[A-Z][a-zA-Z\s]+$', l)`:
an uppercase ASCII letter followed by one or more letters or whitespace. -/
def dishLineMatch : PyStr → Bool
  | [] => false
  | c :: rest =>
    (65 ≤ c && c ≤ 90) && !rest.isEmpty &&
      rest.all (fun d =>
        (65 ≤ d && d ≤ 90) || (97 ≤ d && d ≤ 122) || pyIsSpaceN d)

/-- The reducer's `food_tags` local (lines 281-289): keep the tags whose
lower-cased name contains a food keyword, in order, then stable-sort by
confidence descending. -/
def visionFoodTags (inp : VisionInput) : List VTag :=
  sortTagsDesc ((inp.tags.getD []).filter (fun t => isFoodTagName t.name))

/-- The caption fallback for `dish_name` (lines 294-300): when the
lower-cased caption contains "food", strip the boilerplate lead-ins and
"a plate of", trimming whitespace after each removal. -/
def visionCaptionDish (inp : VisionInput) : PyStr :=
  match inp.caption with
  | some cap =>
    if containsSub (str "food") (pyLower cap.text) then
      stripWs (subAllLits [str "a plate of"]
        (stripWs (subAllLits captionLeadIns (pyLower cap.text))))
    else []
  | none => []

/-- The `dish_name` local after lines 292-300: the top sorted food tag when
its confidence exceeds 0.7, else the caption fallback. -/
def visionDish1 (inp : VisionInput) : PyStr :=
  match visionFoodTags inp with
  | t :: _ => if t.confidence > 7/10 then t.name else visionCaptionDish inp
  | [] => visionCaptionDish inp

/-- The `menu_text` local (lines 302-306): every OCR line in block/line
order, each terminated by a newline. -/
def visionMenuText (inp : VisionInput) : PyStr :=
  match inp.readBlocks with
  | some blocks => (blocks.map (fun b =>
      (b.lines.map (fun l => l ++ [10])).flatten)).flatten
  | none => []

/-- The `dish_name` local after the OCR fallback (lines 308-315): when OCR
text exists and no dish name was found, the first stripped line matching
`^[A-Z][a-zA-Z\s]+$`. -/
def visionDish (inp : VisionInput) : PyStr :=
  if !(visionMenuText inp).isEmpty && (visionDish1 inp).isEmpty then
    match (splitNl (visionMenuText inp)).find?
        (fun l => dishLineMatch (stripWs l)) with
    | some l => stripWs l
    | none => visionDish1 inp
  else visionDish1 inp

/-- The vision result reducer: the body of `analyze_menu_image`
(src/analyze-menu-image/__init__.py lines 276-327) after a successful
vision call. -/
def analyze_menu_image (inp : VisionInput) : VisionResults :=
  { dish_name := visionDish inp,
    caption := match inp.caption with | some c => c.text | none => [],
    caption_confidence :=
      match inp.caption with | some c => c.confidence | none => 0,
    food_tags := visionFoodTags inp,
    menu_text := visionMenuText inp }

/-- The reducer's surrounding try/except (lines 268-331): a vision-call
failure is caught and reduced to an error payload rather than propagated. -/
inductive VisionOut where
  | ok (vr : VisionResults)
  | err (msg : PyStr)
deriving DecidableEq

/-- The reducer `analyze_menu_image` including its exception handler, as a function of
the vision call's outcome. -/
def analyze_menu_image_result (callResult : Except PyStr VisionInput) : VisionOut :=
  match callResult with
  | .ok inp => .ok (analyze_menu_image inp)
  | .error e => .err e

/-- Inserting a tag permutes consing it. -/
theorem perm_insertTagDesc (t : VTag) (l : List VTag) :
    List.Perm (insertTagDesc t l) (t :: l) := by
  induction l with
  | nil => exact List.Perm.refl _
  | cons u us ih =>
    simp only [insertTagDesc]
    split_ifs
    · exact List.Perm.refl _
    · exact (ih.cons u).trans (List.Perm.swap t u us)

/-- Inserting into a confidence-descending list keeps it descending. -/
theorem sorted_insertTagDesc (t : VTag) (l : List VTag)
    (hl : List.Sorted (fun a b : VTag => b.confidence ≤ a.confidence) l) :
    List.Sorted (fun a b : VTag => b.confidence ≤ a.confidence)
      (insertTagDesc t l) := by
  induction l with
  | nil => simp [insertTagDesc]
  | cons u us ih =>
    rcases List.sorted_cons.mp hl with ⟨hu, hus⟩
    simp only [insertTagDesc]
    split_ifs with hc
    · refine List.sorted_cons.mpr ⟨?_, hl⟩
      intro b hb
      rcases List.mem_cons.mp hb with rfl | hb
      · exact hc
      · exact le_trans (hu b hb) hc
    · refine List.sorted_cons.mpr ⟨?_, ih hus⟩
      intro b hb
      rcases List.mem_cons.mp ((perm_insertTagDesc t us).mem_iff.mp hb) with rfl | hb
      · exact le_of_not_le hc
      · exact hu b hb

/-- The tag sort is a permutation of its input. -/
theorem perm_sortTagsDesc (l : List VTag) : List.Perm (sortTagsDesc l) l := by
  induction l with
  | nil => exact List.Perm.refl _
  | cons t ts ih => exact (perm_insertTagDesc t (sortTagsDesc ts)).trans (ih.cons t)

/-- The tag sort yields a confidence-descending list. -/
theorem sorted_sortTagsDesc (l : List VTag) :
    List.Sorted (fun a b : VTag => b.confidence ≤ a.confidence)
      (sortTagsDesc l) := by
  induction l with
  | nil => simp [sortTagsDesc]
  | cons t ts ih => exact sorted_insertTagDesc t (sortTagsDesc ts) ih

/-- When the sorted food-tag list is known, the pre-OCR dish name is the
top-tag conditional. -/
theorem visionDish1_eq_of (inp : VisionInput) (t : VTag) (rest : List VTag)
    (h : visionFoodTags inp = t :: rest) :
    visionDish1 inp =
      if t.confidence > 7/10 then t.name else visionCaptionDish inp := by
  unfold visionDish1
  rw [h]

/-- C3 (amended): the reducer filters tags to names containing a
food-domain keyword (case-insensitive substring), stable-sorts survivors
by confidence descending, and picks the top survivor's name when its
confidence exceeds 0.7 — but on the claim's example neither "pizza" nor
"plate" contains any food keyword, so both are excluded, the filtered
list is empty, and the subject label is the empty string (no caption, no
OCR), not "pizza". -/
theorem vision_food_tag_selection :
    (analyze_menu_image ⟨some [⟨str "pizza", 82/100⟩, ⟨str "plate", 95/100⟩],
        none, none⟩).food_tags = [] ∧
    (analyze_menu_image ⟨some [⟨str "pizza", 82/100⟩, ⟨str "plate", 95/100⟩],
        none, none⟩).dish_name = str "" ∧
    (∀ (inp : VisionInput) (t : VTag),
      t ∈ (analyze_menu_image inp).food_tags ↔
        t ∈ inp.tags.getD [] ∧ isFoodTagName t.name = true) ∧
    (∀ inp : VisionInput,
      List.Sorted (fun a b : VTag => b.confidence ≤ a.confidence)
        (analyze_menu_image inp).food_tags) ∧
    (∀ (inp : VisionInput) (t : VTag) (rest : List VTag),
      (analyze_menu_image inp).food_tags = t :: rest →
      (7 : ℚ)/10 < t.confidence → t.name ≠ [] →
      (analyze_menu_image inp).dish_name = t.name) ∧
    sortTagsDesc [⟨str "meal a", 4/5⟩, ⟨str "meal b", 4/5⟩] =
      [⟨str "meal a", 4/5⟩, ⟨str "meal b", 4/5⟩] := by
  refine ⟨by decide, by decide, ?_, ?_, ?_, ?_⟩
  · intro inp t
    exact (perm_sortTagsDesc _).mem_iff.trans List.mem_filter
  · intro inp
    exact sorted_sortTagsDesc _
  · intro inp t rest hft hconf hname
    have hft' : visionFoodTags inp = t :: rest := hft
    have hd1 : visionDish1 inp = t.name :=
      (visionDish1_eq_of inp t rest hft').trans (if_pos hconf)
    have hne : t.name.isEmpty = false := by
      cases h : t.name with
      | nil => exact absurd h hname
      | cons a l => rfl
    show visionDish inp = t.name
    unfold visionDish
    rw [hd1, hne]
    simp
  · simp [sortTagsDesc, insertTagDesc]

/-- Witness: the amended C3 theorem's selection rule applied to a tag list
whose sole tag name "seafood" does contain the keyword "food". -/
theorem vision_food_tag_selection_witness :
    (analyze_menu_image ⟨some [⟨str "seafood", 82/100⟩], none,
        none⟩).dish_name = str "seafood" :=
  vision_food_tag_selection.2.2.2.2.1
    ⟨some [⟨str "seafood", 82/100⟩], none, none⟩
    ⟨str "seafood", 82/100⟩ [] rfl (by norm_num) (by decide)

/-- C3 counterexample: on the claim's example tag list the reducer does not
yield "pizza" — "pizza" contains no food-domain keyword and is filtered
out. -/
theorem vision_food_tag_selection_counterexample :
    (analyze_menu_image ⟨some [⟨str "pizza", 82/100⟩, ⟨str "plate", 95/100⟩],
        none, none⟩).dish_name ≠ str "pizza" := by
  decide

/-- C4 (amended): on the caption "a photo of a bowl of food" with no
qualifying tags, the reducer strips the lead-in "a photo of" but nothing
else — "a bowl of" is not a boilerplate pattern — so the subject label is
"a bowl of food", not "bowl of". This holds both with no tags at all and
with a non-food tag list. -/
theorem caption_boilerplate_strip :
    (analyze_menu_image ⟨none, some ⟨str "a photo of a bowl of food", 9/10⟩,
        none⟩).dish_name = str "a bowl of food" ∧
    (analyze_menu_image ⟨some [⟨str "plate", 95/100⟩],
        some ⟨str "a photo of a bowl of food", 9/10⟩, none⟩).dish_name =
      str "a bowl of food" := by
  exact ⟨by decide, by decide⟩

/-- C4 counterexample: the claimed output "bowl of" is not what the reducer
produces on the claimed caption. -/
theorem caption_boilerplate_strip_counterexample :
    (analyze_menu_image ⟨none, some ⟨str "a photo of a bowl of food", 9/10⟩,
        none⟩).dish_name ≠ str "bowl of" := by
  decide

/-- A decoded JSON-scalar value as stored in an extracted field dictionary:
a string, a number, or an integer (dates, times, phone numbers, selection
marks and country regions all decode to strings). -/
inductive DVal where
  | pstr (s : PyStr)
  | pnum (q : ℚ)
  | pint (n : ℤ)
deriving DecidableEq

/-- A typed payload as held by an SDK `DocumentField` attribute before
decoding. Dates and times are objects carrying an `isoformat` rendering
(for `datetime.date`/`datetime.time`, `str(v)` equals `v.isoformat()`). -/
inductive AVal where
  | astr (s : PyStr)
  | anum (q : ℚ)
  | aint (n : ℤ)
  | adate (iso : PyStr)
  | atime (iso : PyStr)
deriving DecidableEq

/-- Does the payload object expose an `isoformat` method? -/
def AVal.hasIso : AVal → Bool
  | .adate _ => true
  | .atime _ => true
  | _ => false

/-- The payload's `isoformat()` rendering (dates and times only; other
payloads never reach this in the dispatch). -/
def AVal.isoOf : AVal → PyStr
  | .adate iso => iso
  | .atime iso => iso
  | .astr s => s
  | .anum _ => []
  | .aint _ => []

/-- A payload stored as-is into the result dictionary. -/
def AVal.toD : AVal → DVal
  | .astr s => .pstr s
  | .anum q => .pnum q
  | .aint n => .pint n
  | .adate iso => .pstr iso
  | .atime iso => .pstr iso

/-- The scalar attributes of an SDK `DocumentField` object, named as the
source itself names them in its typed-accessor chain
(src/analyze-document/__init__.py lines 122-143): `value_string`,
`value_number`, `value_integer`, `value_date`, `value_time`,
`value_phone_number`, `value_selection_mark`, `value_country_region`,
plus `value_type`, `confidence` and `content`. `none` encodes an absent
attribute (a failing `hasattr`). -/
structure ScalarF where
  value_type : Option String
  confidence : Option ℚ
  content : Option PyStr
  value_string : Option PyStr
  value_number : Option ℚ
  value_integer : Option ℤ
  value_date : Option PyStr
  value_time : Option PyStr
  value_phone_number : Option PyStr
  value_selection_mark : Option PyStr
  value_country_region : Option PyStr
deriving DecidableEq

/-- Python's `getattr(field, name)` over the typed-payload attributes of a
`ScalarF`, as used by the inner dispatch `getattr(item_field,
f"value_{item_field.value_type}")` (lines 158-160): the lookup succeeds
only when `name` equals one of the attribute names verbatim. -/
def getattrV (f : ScalarF) (name : String) : Option AVal :=
  if name = "value_string" then f.value_string.map .astr
  else if name = "value_number" then f.value_number.map .anum
  else if name = "value_integer" then f.value_integer.map .aint
  else if name = "value_date" then f.value_date.map .adate
  else if name = "value_time" then f.value_time.map .atime
  else if name = "value_phone_number" then f.value_phone_number.map .astr
  else if name = "value_selection_mark" then f.value_selection_mark.map .astr
  else if name = "value_country_region" then f.value_country_region.map .astr
  else none

/-- The top-level typed-accessor chain of lines 127-143, restricted to the
scalar value types (the `array` branch fills `items`, not `value`):
dispatch on `value_type`, reading the matching snake_case payload
attribute; dates and times are rendered with `str(...)`, which for
`datetime.date`/`datetime.time` is the ISO-8601 string. -/
def topLevelValue (f : ScalarF) : Option DVal :=
  match f.value_type with
  | some vt =>
    if vt = "string" then f.value_string.map .pstr
    else if vt = "number" then f.value_number.map .pnum
    else if vt = "integer" then f.value_integer.map .pint
    else if vt = "date" then f.value_date.map .pstr
    else if vt = "time" then f.value_time.map .pstr
    else if vt = "phoneNumber" then f.value_phone_number.map .pstr
    else if vt = "selectionMark" then f.value_selection_mark.map .pstr
    else if vt = "countryRegion" then f.value_country_region.map .pstr
    else none
  | none => none

/-- The inner dispatch of lines 157-165: build the attribute name
`"value_" + value_type`, fetch it with `getattr` when present, and store
`value.isoformat()` for objects that have `isoformat`, else the value
itself. -/
def innerValue (f : ScalarF) : Option DVal :=
  match f.value_type with
  | some vt =>
    match getattrV f ("value_" ++ vt) with
    | some v => some (if v.hasIso then .pstr v.isoOf else v.toD)
    | none => none
  | none => none

/-- One element of an `array`-typed field's `value_array` (lines 147-150):
a `DocumentField` probed only for `value_type == "object"` and
`value_object`, a mapping of inner field names to scalar fields. -/
structure SDKItem where
  value_type : Option String
  value_object : Option (List (String × ScalarF))
deriving DecidableEq

/-- A top-level SDK `DocumentField`: the scalar attributes plus the
`value_array` attribute probed by the `array` branch (line 144). -/
structure SDKTop extends ScalarF where
  value_array : Option (List SDKItem)
deriving DecidableEq

/-- The `{content, value}` entry built for one inner field of a line item
(lines 152-165). -/
structure InnerEntry where
  content : Option PyStr
  value : Option DVal
deriving DecidableEq

/-- The `items_list` built for an `array`-typed field (lines 146-167):
object-typed elements become mappings from inner field name to
`{content, value}` with the inner value decoded by `innerValue`;
non-object elements are skipped. -/
def extractItems (arr : List SDKItem) : List (List (String × InnerEntry)) :=
  arr.filterMap (fun it =>
    match it.value_type, it.value_object with
    | some "object", some obj =>
      some (obj.map (fun p => (p.1, InnerEntry.mk p.2.content (innerValue p.2))))
    | _, _ => none)

/-- The `field_dict` built for one named field (lines 120-173). -/
structure FieldDict where
  value_type : Option String
  confidence : Option ℚ
  value : Option DVal
  items : Option (List (List (String × InnerEntry)))
  content : Option PyStr
deriving DecidableEq

/-- Extraction of a single field: type and confidence copied, value from
the typed-accessor chain, items from the array branch, content retained
whenever present. -/
def extractField (f : SDKTop) : FieldDict :=
  { value_type := f.value_type,
    confidence := f.confidence,
    value := topLevelValue f.toScalarF,
    items :=
      match f.value_type, f.value_array with
      | some "array", some arr => some (extractItems arr)
      | _, _ => none,
    content := f.content }

/-- The `fields_dict` loop of lines 118-175: every named field is
extracted, none is skipped. -/
def extractFields (flds : List (String × SDKTop)) : List (String × FieldDict) :=
  flds.map (fun p => (p.1, extractField p.2))

/-- Does the field's declared `value_type` have its matching typed payload
attribute present? -/
def typedPayloadPresent (f : SDKTop) : Bool :=
  match f.value_type with
  | some vt =>
    if vt = "string" then f.value_string.isSome
    else if vt = "number" then f.value_number.isSome
    else if vt = "integer" then f.value_integer.isSome
    else if vt = "date" then f.value_date.isSome
    else if vt = "time" then f.value_time.isSome
    else if vt = "phoneNumber" then f.value_phone_number.isSome
    else if vt = "selectionMark" then f.value_selection_mark.isSome
    else if vt = "countryRegion" then f.value_country_region.isSome
    else if vt = "array" then f.value_array.isSome
    else false
  | none => false

/-- Mapping over an absent optional value yields an absent value. -/
theorem optionMap_none_of_isSome_false {α β : Type} (f : α → β) (x : Option α)
    (h : x.isSome = false) : x.map f = none := by
  cases x with
  | none => rfl
  | some a => exact absurd h (by simp)

/-- C8: a field whose declared `value_type` has no matching typed payload
attribute is extracted without raising: its `value` (and `items`) entry is
absent, its `content` is retained verbatim, and the enclosing fields loop
still yields an entry for every input field. -/
theorem extraction_no_raise (f : SDKTop)
    (h : typedPayloadPresent f = false) :
    (extractField f).value = none ∧ (extractField f).items = none ∧
    (extractField f).content = f.content ∧
    ∀ flds : List (String × SDKTop),
      (extractFields flds).map Prod.fst = flds.map Prod.fst := by
  obtain ⟨⟨vt, conf, cont, vs, vn, vi, vd, vtm, vp, vsm, vcr⟩, varr⟩ := f
  refine ⟨?_, ?_, rfl, ?_⟩
  · simp only [extractField]
    cases vt with
    | none => rfl
    | some v =>
      simp only [typedPayloadPresent] at h
      simp only [topLevelValue]
      split_ifs at h ⊢ <;>
        first
          | rfl
          | exact optionMap_none_of_isSome_false _ _ h
  · simp only [extractField]
    cases vt with
    | none => rfl
    | some v =>
      simp only [typedPayloadPresent] at h
      split
      · next arr heq =>
        injection heq with hv
        subst hv
        simp at h
      · rfl
  · intro flds
    unfold extractFields
    rw [List.map_map]
    rfl

/-- Witness: C8 applied to a concrete field declared `string` with no
string payload but with content "Subtotal". -/
theorem extraction_no_raise_witness :
    (extractField ⟨⟨some "string", none, some (str "Subtotal"), none, none,
        none, none, none, none, none, none⟩, none⟩).value = none ∧
    (extractField ⟨⟨some "string", none, some (str "Subtotal"), none, none,
        none, none, none, none, none, none⟩, none⟩).content =
      some (str "Subtotal") := by
  have h := extraction_no_raise ⟨⟨some "string", none, some (str "Subtotal"),
    none, none, none, none, none, none, none, none⟩, none⟩ (by decide)
  exact ⟨h.1, h.2.2.1⟩

/-- C5 (amended): for an `array`-typed field's object rows, each row is
extracted as a mapping from inner field name to `{content, value}`, and the
inner typed dispatch (`getattr(field, "value_" + value_type)` with
ISO normalization for date/time objects) agrees with the top-level
typed-accessor chain exactly for the value types whose name equals its
payload-attribute suffix — string, number, integer, date and time.
For `phoneNumber`, `selectionMark` and `countryRegion` the constructed
attribute name (e.g. `value_phoneNumber`) does not match the snake_case
payload attribute the top-level chain reads (e.g. `value_phone_number`),
so the inner dispatch finds nothing and omits the value. -/
theorem inner_dispatch_refines (g : ScalarF) (vt : String)
    (hvt : g.value_type = some vt) :
    ((vt = "string" ∨ vt = "number" ∨ vt = "integer" ∨ vt = "date" ∨
        vt = "time") → innerValue g = topLevelValue g) ∧
    ((vt = "phoneNumber" ∨ vt = "selectionMark" ∨ vt = "countryRegion") →
      innerValue g = none) ∧
    (∀ (arr : List SDKItem) (it : SDKItem) (obj : List (String × ScalarF)),
      it ∈ arr → it.value_type = some "object" → it.value_object = some obj →
      (obj.map (fun p => (p.1, InnerEntry.mk p.2.content (innerValue p.2)))) ∈
        extractItems arr) := by
  refine ⟨?_, ?_, ?_⟩
  · intro hv
    unfold innerValue topLevelValue getattrV
    rw [hvt]
    rcases hv with rfl | rfl | rfl | rfl | rfl
    · cases g.value_string <;> rfl
    · cases g.value_number <;> rfl
    · cases g.value_integer <;> rfl
    · cases g.value_date <;> rfl
    · cases g.value_time <;> rfl
  · intro hv
    unfold innerValue getattrV
    rw [hvt]
    rcases hv with rfl | rfl | rfl <;> rfl
  · intro arr it obj hmem hty hobj
    unfold extractItems
    rw [List.mem_filterMap]
    refine ⟨it, hmem, ?_⟩
    rw [hty, hobj]
    rfl

/-- Witness: C5 applied to a concrete date-typed inner field, where both
dispatches produce the ISO rendering "2024-01-02". -/
theorem inner_dispatch_refines_witness :
    innerValue ⟨some "date", none, some (str "Jan 2, 2024"), none, none,
        none, some (str "2024-01-02"), none, none, none, none⟩ =
      topLevelValue ⟨some "date", none, some (str "Jan 2, 2024"), none, none,
        none, some (str "2024-01-02"), none, none, none, none⟩ ∧
    innerValue ⟨some "date", none, some (str "Jan 2, 2024"), none, none,
        none, some (str "2024-01-02"), none, none, none, none⟩ =
      some (.pstr (str "2024-01-02")) := by
  refine ⟨(inner_dispatch_refines _ "date" rfl).1 ?_, by decide⟩
  exact Or.inr (Or.inr (Or.inr (Or.inl rfl)))

/-- C5 counterexample: a phoneNumber-typed inner field whose payload
attribute `value_phone_number` is present decodes to a value under the
top-level dispatch but to nothing under the inner dispatch, because the
inner dispatch probes the attribute name `value_phoneNumber`. -/
theorem inner_dispatch_refines_counterexample :
    (ScalarF.mk (some "phoneNumber") none (some (str "555-0100")) none none
        none none none (some (str "5550100")) none none).value_phone_number
      = some (str "5550100") ∧
    innerValue (ScalarF.mk (some "phoneNumber") none (some (str "555-0100"))
        none none none none none (some (str "5550100")) none none) = none ∧
    topLevelValue (ScalarF.mk (some "phoneNumber") none (some (str "555-0100"))
        none none none none none (some (str "5550100")) none none) =
      some (.pstr (str "5550100")) := by
  decide

/-- Python dict lookup over an association list with unique keys
(dictionary key membership plus subscript access). -/
def lookupF {α : Type} (fs : List (String × α)) (k : String) : Option α :=
  (fs.find? (fun p => p.1 == k)).map Prod.snd

/-- One entry of the `raw_documents` list persisted and re-read by the
classification step: `doc_type`, `confidence` and the extracted `fields`
dictionary (absent when the source document exposed no fields). -/
structure RawDoc where
  doc_type : Option String
  confidence : Option ℚ
  fields : Option (List (String × FieldDict))
deriving DecidableEq

/-- The merchant-keyword trigger of lines 203-206: the `MerchantName`
field's decoded value (lower-cased when it is a string, else the empty
string) contains one of the restaurant keywords. -/
def merchantKeywordHit (fs : List (String × FieldDict)) : Bool :=
  match lookupF fs "MerchantName" with
  | some fd =>
    [str "restaurant", str "cafe", str "bar", str "grill"].any
      (fun k => containsSub k
        (match fd.value with
         | some (.pstr s) => pyLower s
         | _ => []))
  | none => false

/-- The tip trigger of lines 207-209: a `Tip` or `ServiceCharge` field is
present, its value irrelevant. -/
def tipOrServiceChargePresent (fs : List (String × FieldDict)) : Bool :=
  (lookupF fs "Tip").isSome || (lookupF fs "ServiceCharge").isSome

/-- Classification of `raw_documents[0]` (lines 196-211): base category
from `doc_type`, upgraded to `restaurant_bill` by either trigger when the
document is a receipt with fields. -/
def classifyDoc (d : RawDoc) : PyStr :=
  match d.doc_type with
  | some dt =>
    if dt = "receipt" then
      match d.fields with
      | some fs =>
        if merchantKeywordHit fs || tipOrServiceChargePresent fs then
          str "restaurant_bill"
        else str "receipt"
      | none => str "receipt"
    else if dt = "invoice" then str "invoice"
    else str "unknown"
  | none => str "unknown"

/-- The response-side classification heuristic of
src/analyze-document/__init__.py lines 194-211. -/
def classifyResponse (raw_documents : Option (List RawDoc)) : PyStr :=
  match raw_documents with
  | some (d :: _) => classifyDoc d
  | _ => str "unknown"

/-- The merchant-keyword trigger lifted to a document. -/
def merchantTrigger (d : RawDoc) : Bool :=
  match d.fields with
  | some fs => merchantKeywordHit fs
  | none => false

/-- The tip/service-charge presence trigger lifted to a document. -/
def tipTrigger (d : RawDoc) : Bool :=
  match d.fields with
  | some fs => tipOrServiceChargePresent fs
  | none => false

/-- C7: for a first document with docType "receipt", classification yields
restaurant_bill exactly when the merchant-keyword trigger or the
Tip/ServiceCharge presence trigger fires — the triggers are independent
and either alone suffices; in particular a receipt with no MerchantName
but a present Tip field classifies as restaurant_bill. -/
theorem classify_receipt_triggers (d : RawDoc) (rest : List RawDoc)
    (hdt : d.doc_type = some "receipt") :
    (classifyResponse (some (d :: rest)) = str "restaurant_bill" ↔
      (merchantTrigger d || tipTrigger d) = true) ∧
    (∀ (d2 : RawDoc) (rest2 : List RawDoc) (fs : List (String × FieldDict)),
      d2.doc_type = some "receipt" → d2.fields = some fs →
      lookupF fs "MerchantName" = none → (lookupF fs "Tip").isSome = true →
      classifyResponse (some (d2 :: rest2)) = str "restaurant_bill") := by
  constructor
  · show classifyDoc d = str "restaurant_bill" ↔ _
    unfold classifyDoc merchantTrigger tipTrigger
    simp only [hdt]
    rw [if_pos trivial]
    cases hf : d.fields with
    | none => decide
    | some fs =>
      show ((if (merchantKeywordHit fs || tipOrServiceChargePresent fs) = true
          then str "restaurant_bill" else str "receipt") =
            str "restaurant_bill") ↔
        (merchantKeywordHit fs || tipOrServiceChargePresent fs) = true
      rcases Bool.eq_false_or_eq_true
          (merchantKeywordHit fs || tipOrServiceChargePresent fs) with hc | hc
      · rw [hc, if_pos rfl]
        simp
      · rw [hc, if_neg (by decide)]
        constructor
        · intro h
          exact absurd h (by decide)
        · intro h
          exact absurd h Bool.false_ne_true
  · intro d2 rest2 fs h1 h2 h3 h4
    show classifyDoc d2 = str "restaurant_bill"
    unfold classifyDoc
    simp only [h1, h2]
    rw [if_pos trivial]
    have hm : merchantKeywordHit fs = false := by
      unfold merchantKeywordHit
      rw [h3]
    have ht : tipOrServiceChargePresent fs = true := by
      unfold tipOrServiceChargePresent
      rw [h4, Bool.true_or]
    rw [hm, ht]
    rfl

/-- Witness: C7's Tip-only rule applied to a concrete receipt document
with a Tip field and no MerchantName. -/
theorem classify_receipt_triggers_witness :
    classifyResponse (some [RawDoc.mk (some "receipt") none
      (some [("Tip", FieldDict.mk (some "number") none none none none)])]) =
      str "restaurant_bill" :=
  (classify_receipt_triggers (RawDoc.mk (some "receipt") none
      (some [("Tip", FieldDict.mk (some "number") none none none none)])) []
      rfl).2
    (RawDoc.mk (some "receipt") none
      (some [("Tip", FieldDict.mk (some "number") none none none none)])) []
    [("Tip", FieldDict.mk (some "number") none none none none)]
    rfl rfl (by decide) (by decide)

/-- A UTC timestamp as produced by `datetime.datetime.utcnow()`; only the
components that `strftime('%Y%m%d%H%M%S')` renders are modelled. -/
structure PyDateTime where
  year : Nat
  month : Nat
  day : Nat
  hour : Nat
  minute : Nat
  second : Nat
deriving DecidableEq

/-- A two-digit zero-padded decimal rendering (strftime %m, %d, %H, %M,
%S; the fields of a valid datetime never exceed two digits). -/
def pad2 (n : Nat) : PyStr := [48 + n / 10 % 10, 48 + n % 10]

/-- A four-digit zero-padded decimal rendering (strftime %Y; datetime
years lie in 1..9999). -/
def pad4 (n : Nat) : PyStr :=
  [48 + n / 1000 % 10, 48 + n / 100 % 10, 48 + n / 10 % 10, 48 + n % 10]

/-- The rendering `timestamp.strftime` with format `%Y%m%d%H%M%S`. -/
def fmtTimestamp (t : PyDateTime) : PyStr :=
  pad4 t.year ++ pad2 t.month ++ pad2 t.day ++
    pad2 t.hour ++ pad2 t.minute ++ pad2 t.second

example : fmtTimestamp ⟨2024, 1, 2, 3, 4, 5⟩ = str "20240102030405" := by decide

/-- Python-truthy read of a form field: present and a nonempty string. -/
def getFormTruthy (ui : List (String × PyStr)) (k : String) : Option PyStr :=
  match lookupF ui k with
  | some v => if v.isEmpty then none else some v
  | none => none

/-- The username-resolution chain shared by both save functions
(src/analyze-document/__init__.py lines 374-381, src/analyze-menu-image/
__init__.py lines 433-440): first truthy of displayName, fullName, owner,
else the literal "unknown". -/
def resolveRawUsername (ui : List (String × PyStr)) : PyStr :=
  match getFormTruthy ui "displayName" with
  | some v => v
  | none =>
    match getFormTruthy ui "fullName" with
    | some v => v
    | none =>
      match getFormTruthy ui "owner" with
      | some v => v
      | none => str "unknown"

/-- The resolved username as used in document keys: snake-cased when
`user_info` is nonempty (the normalization call sits inside the
`if user_info:` block), the bare literal "unknown" otherwise. -/
def resolveUsername (ui : List (String × PyStr)) : PyStr :=
  match ui with
  | [] => str "unknown"
  | _ => convert_to_snake_case (resolveRawUsername ui)

/-- The simple receipt type computed by `save_raw_documents_to_db`
(src/analyze-document/__init__.py lines 366-371): "receipt" unless the
first document has a truthy docType "invoice". -/
def recordReceiptType (raw_documents : Option (List RawDoc)) : PyStr :=
  match raw_documents with
  | some (d :: _) =>
    match d.doc_type with
    | some dt =>
      if dt = "" then str "receipt"
      else if dt = "receipt" then str "receipt"
      else if dt = "invoice" then str "invoice"
      else str "receipt"
    | none => str "receipt"
  | _ => str "receipt"

/-- One promotion of lines 405-433: if the first name is a present field,
use its `value` entry when it has one (and do not fall through to the
second name); else try the second name the same way. -/
def promoteFromFields (fs : List (String × FieldDict)) (n1 n2 : String) :
    Option DVal :=
  match lookupF fs n1 with
  | some fd => fd.value
  | none =>
    match lookupF fs n2 with
    | some fd => fd.value
    | none => none

/-- The record assembled by `save_raw_documents_to_db` (lines 388-433).
The random `_id` UUID is not modelled; `upload_timestamp` is kept as the
structured timestamp whose ISO rendering the code stores. -/
structure ReceiptRecord where
  document_key : PyStr
  blob_name : PyStr
  blob_url : PyStr
  sas_url : PyStr
  upload_timestamp : PyDateTime
  receipt_type : PyStr
  user_info : List (String × PyStr)
  metadata : List (String × PyStr)
  raw_documents : List RawDoc
  merchant : Option DVal
  total : Option DVal
  date : Option DVal
deriving DecidableEq

/-- The record-building portion of `save_raw_documents_to_db`
(src/analyze-document/__init__.py lines 358-433): key generation,
receipt type, user/metadata passthrough, raw-document retention and
top-level promotion of merchant, total and date. -/
def save_raw_documents_record (blob_name blob_url sas_url : PyStr)
    (user_info metadata : List (String × PyStr))
    (raw_documents : Option (List RawDoc)) (now : PyDateTime) :
    ReceiptRecord :=
  let receipt_type := recordReceiptType raw_documents
  let username := resolveUsername user_info
  let doc_key := receipt_type ++ str "_" ++ username ++ str "_" ++
    fmtTimestamp now
  let firstFields : Option (List (String × FieldDict)) :=
    match raw_documents with
    | some (d :: _) => d.fields
    | _ => none
  { document_key := doc_key,
    blob_name := blob_name,
    blob_url := blob_url,
    sas_url := sas_url,
    upload_timestamp := now,
    receipt_type := receipt_type,
    user_info := user_info,
    metadata := metadata,
    raw_documents := raw_documents.getD [],
    merchant :=
      match firstFields with
      | some fs => promoteFromFields fs "MerchantName" "VendorName"
      | none => none,
    total :=
      match firstFields with
      | some fs => promoteFromFields fs "Total" "InvoiceTotal"
      | none => none,
    date :=
      match firstFields with
      | some fs => promoteFromFields fs "TransactionDate" "InvoiceDate"
      | none => none }

/-- A list prefixed by itself plus anything. -/
theorem startsWithL_append (p s : PyStr) : startsWithL p (p ++ s) = true := by
  induction p with
  | nil => rfl
  | cons a as ih => simp [startsWithL, ih]

/-- A two-part prefix of its own extension. -/
theorem startsWithL_append2 (p q s : PyStr) :
    startsWithL (p ++ q) (p ++ (q ++ s)) = true := by
  induction p with
  | nil => exact startsWithL_append q s
  | cons a as ih => simp [startsWithL, ih]

/-- The amended-claim receipt type, stated from the spec's wording once
corrected: "invoice" exactly for a truthy docType "invoice" on the first
document, else "receipt". -/
def specSimpleReceiptType (docs : Option (List RawDoc)) : PyStr :=
  match docs with
  | some (d :: _) =>
    if d.doc_type = some "invoice" then str "invoice" else str "receipt"
  | _ => str "receipt"

/-- The record builder's receipt type matches the two-valued rule. -/
theorem recordReceiptType_eq_spec (docs : Option (List RawDoc)) :
    recordReceiptType docs = specSimpleReceiptType docs := by
  rcases docs with _ | l
  · rfl
  · rcases l with _ | ⟨d, ds⟩
    · rfl
    · cases hdt : d.doc_type with
      | none => simp [recordReceiptType, specSimpleReceiptType, hdt]
      | some dt =>
        simp only [recordReceiptType, specSimpleReceiptType, hdt,
          Option.some.injEq]
        split_ifs <;> simp_all

/-- The spec receipt type takes only the two simple values. -/
theorem specSimpleReceiptType_cases (docs : Option (List RawDoc)) :
    specSimpleReceiptType docs = str "receipt" ∨
      specSimpleReceiptType docs = str "invoice" := by
  rcases docs with _ | l
  · exact Or.inl rfl
  · rcases l with _ | ⟨d, ds⟩
    · exact Or.inl rfl
    · simp only [specSimpleReceiptType]
      split_ifs
      · exact Or.inr rfl
      · exact Or.inl rfl

/-- C1 (amended): the receipt type stored in the persisted record (and
prefixed to its document key) is computed by the simple two-valued rule —
"invoice" for a first document with truthy docType "invoice", otherwise
"receipt" (also for empty documents, missing or unrecognized docType); it
is never "restaurant_bill" or "unknown". The §4.3 classification with the
restaurant upgrade feeds only the HTTP response, not the stored record. -/
theorem record_receipt_type_simple (bn bu su : PyStr)
    (ui md : List (String × PyStr)) (docs : Option (List RawDoc))
    (now : PyDateTime) :
    (save_raw_documents_record bn bu su ui md docs now).receipt_type =
      specSimpleReceiptType docs ∧
    startsWithL (specSimpleReceiptType docs ++ str "_")
      (save_raw_documents_record bn bu su ui md docs now).document_key =
        true ∧
    (save_raw_documents_record bn bu su ui md docs now).receipt_type ≠
      str "restaurant_bill" ∧
    (save_raw_documents_record bn bu su ui md docs now).receipt_type ≠
      str "unknown" := by
  have hrt := recordReceiptType_eq_spec docs
  refine ⟨hrt, ?_, ?_, ?_⟩
  · show startsWithL (specSimpleReceiptType docs ++ str "_")
      (recordReceiptType docs ++ str "_" ++ resolveUsername ui ++ str "_" ++
        fmtTimestamp now) = true
    rw [hrt]
    simp only [List.append_assoc]
    exact startsWithL_append2 _ _ _
  · show recordReceiptType docs ≠ str "restaurant_bill"
    rcases specSimpleReceiptType_cases docs with h | h <;> rw [hrt, h] <;> decide
  · show recordReceiptType docs ≠ str "unknown"
    rcases specSimpleReceiptType_cases docs with h | h <;> rw [hrt, h] <;> decide

/-- C1 counterexample: a receipt document with a Tip field classifies as
restaurant_bill under §4.3 (as implemented for the response), yet the
persisted record stores receipt_type "receipt" — the two disagree. -/
theorem record_receipt_type_counterexample :
    (save_raw_documents_record (str "b") (str "bu") (str "su") [] []
        (some [RawDoc.mk (some "receipt") none
          (some [("Tip", FieldDict.mk (some "number") none none none none)])])
        ⟨2024, 1, 2, 3, 4, 5⟩).receipt_type = str "receipt" ∧
    classifyResponse (some [RawDoc.mk (some "receipt") none
        (some [("Tip", FieldDict.mk (some "number") none none none none)])]) =
      str "restaurant_bill" ∧
    (save_raw_documents_record (str "b") (str "bu") (str "su") [] []
        (some [RawDoc.mk (some "receipt") none
          (some [("Tip", FieldDict.mk (some "number") none none none none)])])
        ⟨2024, 1, 2, 3, 4, 5⟩).receipt_type ≠
      classifyResponse (some [RawDoc.mk (some "receipt") none
        (some [("Tip", FieldDict.mk (some "number") none none none none)])]) := by
  decide

/-- The spec's promotion rule (§4.4): try the source names in order, use
the first name present in the fields mapping, promote its value when it
has one, write nothing otherwise. -/
def specPromote (fs : List (String × FieldDict)) : List String → Option DVal
  | [] => none
  | n :: ns =>
    match lookupF fs n with
    | some fd => fd.value
    | none => specPromote fs ns

/-- The first document's fields mapping, empty when absent. -/
def specFirstFields (docs : List RawDoc) : List (String × FieldDict) :=
  match docs with
  | d :: _ => d.fields.getD []
  | [] => []

/-- The code's two-name promotion agrees with the spec's first-match
rule. -/
theorem promoteFromFields_eq_spec (fs : List (String × FieldDict))
    (n1 n2 : String) :
    promoteFromFields fs n1 n2 = specPromote fs [n1, n2] := by
  unfold promoteFromFields specPromote
  cases lookupF fs n1 with
  | some fd => rfl
  | none =>
    unfold specPromote
    cases lookupF fs n2 with
    | some fd => rfl
    | none => rfl

/-- C9: record building promotes merchant from MerchantName else
VendorName, total from Total else InvoiceTotal, date from TransactionDate
else InvoiceDate, each with first-match priority and silently skipped when
neither source exists; the documents sequence is always stored verbatim
under raw_documents; and a document carrying both Total and InvoiceTotal
promotes Total. -/
theorem record_promotion (bn bu su : PyStr) (ui md : List (String × PyStr))
    (docs : List RawDoc) (now : PyDateTime) :
    (save_raw_documents_record bn bu su ui md (some docs) now).merchant =
      specPromote (specFirstFields docs) ["MerchantName", "VendorName"] ∧
    (save_raw_documents_record bn bu su ui md (some docs) now).total =
      specPromote (specFirstFields docs) ["Total", "InvoiceTotal"] ∧
    (save_raw_documents_record bn bu su ui md (some docs) now).date =
      specPromote (specFirstFields docs) ["TransactionDate", "InvoiceDate"] ∧
    (save_raw_documents_record bn bu su ui md (some docs) now).raw_documents =
      docs ∧
    (∀ fs : List (String × FieldDict),
      lookupF fs "MerchantName" = none → lookupF fs "VendorName" = none →
      specPromote fs ["MerchantName", "VendorName"] = none) ∧
    (save_raw_documents_record bn bu su ui md
        (some [RawDoc.mk (some "receipt") none (some
          [("Total", FieldDict.mk (some "string") none
              (some (.pstr (str "12.50"))) none none),
           ("InvoiceTotal", FieldDict.mk (some "string") none
              (some (.pstr (str "99.99"))) none none)])]) now).total =
      some (.pstr (str "12.50")) := by
  have hone : ∀ (n1 n2 : String),
      (match (match some docs with
        | some (d :: _) => d.fields
        | _ => none : Option (List (String × FieldDict))) with
       | some fs => promoteFromFields fs n1 n2
       | none => none) = specPromote (specFirstFields docs) [n1, n2] := by
    intro n1 n2
    rcases docs with _ | ⟨d, ds⟩
    · rfl
    · show (match d.fields with
        | some fs => promoteFromFields fs n1 n2
        | none => none) = specPromote (specFirstFields (d :: ds)) [n1, n2]
      cases hf : d.fields with
      | none =>
        simp only [specFirstFields, hf, Option.getD_none]
        rfl
      | some fs =>
        simp only [specFirstFields, hf, Option.getD_some]
        exact promoteFromFields_eq_spec fs n1 n2
  refine ⟨hone _ _, hone _ _, hone _ _, rfl, ?_, rfl⟩
  intro fs h1 h2
  simp only [specPromote, h1, h2]

/-- The dictionary returned by either save function to its caller:
`id`, `document_key`, `status`, and (menu flow only, on failure) the
`error` message. -/
structure SaveResp where
  id : PyStr
  document_key : PyStr
  status : PyStr
  error : Option PyStr
deriving DecidableEq

/-- The function `save_raw_documents_to_db` as a function of the store insert outcome
(src/analyze-document/__init__.py lines 436-465): success returns the
saved-status dictionary, and a store exception is re-raised (`raise`)
unchanged. -/
def save_raw_documents_result (record : ReceiptRecord)
    (ins : Except PyStr PyStr) : Except PyStr SaveResp :=
  match ins with
  | .ok oid => .ok ⟨oid, record.document_key, str "saved", none⟩
  | .error e => .error e

/-- The receipt endpoint's response assembly around the save call
(src/analyze-document/__init__.py lines 183-243): a save success yields a
200 payload carrying the document key, id and classified receipt type; the
re-raised store exception reaches the generic handler, which yields a 500
`{"error": "An unexpected error occurred: ..."}` payload. -/
inductive HttpBody where
  | success (document_key document_id receipt_type : PyStr)
  | errorBody (error : PyStr)
deriving DecidableEq

/-- The receipt-flow HTTP outcome as a function of the insert outcome. -/
def receiptFlowResponse (record : ReceiptRecord)
    (docs : Option (List RawDoc)) (ins : Except PyStr PyStr) :
    Nat × HttpBody :=
  match save_raw_documents_result record ins with
  | .ok resp => (200, .success resp.document_key resp.id
      (classifyResponse docs))
  | .error e => (500, .errorBody (str "An unexpected error occurred: " ++ e))

/-- The raw dish name used for the menu document key
(src/analyze-menu-image/__init__.py lines 427-429): the
`vision_analysis` entry's `dish_name` when that entry exists and carries
one (a successful reduction always does), else the fallback
"unknown_dish" (an error reduction `{"error": ...}` has no `dish_name`
key). -/
def menuDishNameRaw (analysis : Option VisionOut) : PyStr :=
  match analysis with
  | some (.ok vr) => vr.dish_name
  | _ => str "unknown_dish"

/-- The menu document key (lines 427-445):
`menu_{snake(dishName)}_{snake(username)}_{YYYYMMDDHHMMSS}`. -/
def menuDocKey (analysis : Option VisionOut)
    (user_info : List (String × PyStr)) (now : PyDateTime) : PyStr :=
  str "menu_" ++ convert_to_snake_case (menuDishNameRaw analysis) ++
    str "_" ++ resolveUsername user_info ++ str "_" ++ fmtTimestamp now

/-- The function `save_menu_analysis_to_db` as a function of the store insert outcome
(src/analyze-menu-image/__init__.py lines 475-510): success returns the
saved-status dictionary; a store exception is caught and converted to a
partial-success dictionary whose status reports that analysis completed
but storage failed. -/
def save_menu_analysis_result (analysis : Option VisionOut)
    (user_info : List (String × PyStr)) (now : PyDateTime)
    (ins : Except PyStr PyStr) : SaveResp :=
  let doc_key := menuDocKey analysis user_info now
  match ins with
  | .ok oid => ⟨oid, doc_key, str "saved", none⟩
  | .error e =>
    ⟨str "error-saving", doc_key, str "analysis-completed-but-not-saved",
      some e⟩

/-- The menu endpoint always answers 200 with the save dictionary's key
and id (src/analyze-menu-image/__init__.py lines 158-173), whether or not
storage succeeded. -/
def menuFlowResponse (analysis : Option VisionOut)
    (user_info : List (String × PyStr)) (now : PyDateTime)
    (ins : Except PyStr PyStr) : Nat × PyStr × PyStr :=
  let db := save_menu_analysis_result analysis user_info now ins
  (200, db.document_key, db.id)

/-- C2: a store-insert failure makes the receipt flow fail hard — HTTP 500
with an error JSON — while the menu flow degrades to a partial success:
its save step returns status "analysis-completed-but-not-saved" with the
error attached, and the endpoint still answers 200. On success both flows
report saved/200. -/
theorem storage_failure_policies (record : ReceiptRecord)
    (docs : Option (List RawDoc)) (analysis : Option VisionOut)
    (ui : List (String × PyStr)) (now : PyDateTime) (e oid : PyStr) :
    receiptFlowResponse record docs (.error e) =
      (500, .errorBody (str "An unexpected error occurred: " ++ e)) ∧
    save_raw_documents_result record (.error e) = .error e ∧
    (save_menu_analysis_result analysis ui now (.error e)).status =
      str "analysis-completed-but-not-saved" ∧
    (save_menu_analysis_result analysis ui now (.error e)).id =
      str "error-saving" ∧
    (save_menu_analysis_result analysis ui now (.error e)).error = some e ∧
    (save_menu_analysis_result analysis ui now (.error e)).document_key =
      menuDocKey analysis ui now ∧
    (menuFlowResponse analysis ui now (.error e)).1 = 200 ∧
    (receiptFlowResponse record docs (.ok oid)).1 = 200 ∧
    (save_menu_analysis_result analysis ui now (.ok oid)).status =
      str "saved" :=
  ⟨rfl, rfl, rfl, rfl, rfl, rfl, rfl, rfl, rfl⟩

/-- C10: the persisted menu document key always has the form
`menu_{snake(dishName)}_{snake(username)}_{YYYYMMDDHHMMSS}` — with a dish
name in place of the receipt flow's receipt type — where dishName falls
back to "unknown_dish" whenever the vision analysis carries no dish_name
entry (in particular when the vision call failed and was reduced to an
error object), username resolves displayName → fullName → owner →
"unknown", and the timestamp renders as 14 decimal digits. -/
theorem menu_document_key_form (analysis : Option VisionOut)
    (ui : List (String × PyStr)) (now : PyDateTime) :
    menuDocKey analysis ui now =
      str "menu_" ++ convert_to_snake_case (menuDishNameRaw analysis) ++
        str "_" ++ convert_to_snake_case (resolveRawUsername ui) ++
        str "_" ++ fmtTimestamp now ∧
    (∀ msg : PyStr, menuDishNameRaw (some (.err msg)) = str "unknown_dish") ∧
    menuDishNameRaw none = str "unknown_dish" ∧
    (∀ inp : Except PyStr VisionInput,
      (save_menu_analysis_result (some (analyze_menu_image_result inp))
        ui now (.ok (str "id1"))).document_key = menuDocKey
          (some (analyze_menu_image_result inp)) ui now) ∧
    (fmtTimestamp now).length = 14 ∧
    (fmtTimestamp now).all (fun c => 48 ≤ c && c ≤ 57) = true := by
  refine ⟨?_, fun msg => rfl, rfl, fun inp => rfl, rfl, ?_⟩
  · unfold menuDocKey resolveUsername
    cases ui with
    | nil =>
      have h : convert_to_snake_case (resolveRawUsername []) = str "unknown" :=
        by decide
      rw [h]
    | cons a l => rfl
  · simp only [fmtTimestamp, pad2, pad4, List.all_append, List.all_cons,
      List.all_nil, Bool.and_eq_true, Bool.and_true, decide_eq_true_eq]
    omega

/-- Witness: the amended C1 rule applied to a concrete invoice document. -/
theorem record_receipt_type_simple_witness :
    (save_raw_documents_record (str "b") (str "bu") (str "su") [] []
        (some [RawDoc.mk (some "invoice") none none])
        ⟨2024, 1, 2, 3, 4, 5⟩).receipt_type =
      specSimpleReceiptType (some [RawDoc.mk (some "invoice") none none]) ∧
    (save_raw_documents_record (str "b") (str "bu") (str "su") [] []
        (some [RawDoc.mk (some "invoice") none none])
        ⟨2024, 1, 2, 3, 4, 5⟩).receipt_type ≠ str "restaurant_bill" := by
  have h := record_receipt_type_simple (str "b") (str "bu") (str "su") [] []
    (some [RawDoc.mk (some "invoice") none none]) ⟨2024, 1, 2, 3, 4, 5⟩
  exact ⟨h.1, h.2.2.1⟩

/-- Witness: C9's skip-silently rule applied to the empty fields
mapping. -/
theorem record_promotion_witness :
    specPromote [] ["MerchantName", "VendorName"] = none :=
  (record_promotion (str "b") (str "bu") (str "su") [] [] []
    ⟨2024, 1, 2, 3, 4, 5⟩).2.2.2.2.1 [] rfl rfl
